import Mathlib

/-!
Verification of the pipeline orchestration and refinement engine of the
integrated-marketing-campaigns repository, as a shallow embedding in Lean 4.

The embedding follows the Python source:
* `src/core/graph.py` — the generation loop (`should_refine`,
  `increment_refinement`, the conditional edge wiring) and `input_node`;
* `src/agents/content_agent.py` — `generate_asset`, `batch_generate`;
* `src/agents/promo_agent.py` — `generate_promo`, `batch_promote`;
* `src/agents/reviewer_agent.py` — `review_campaign`;
* `src/agents/jtbd_agent.py` — `analyze_jobs`;
* `src/agents/segment_agent.py` — `analyze`;
* `src/utils/scraper.py` — `validate_url`, `scrape`.

External collaborators (the LLM chains, the web fetcher, the document
loader, Python's `urlparse` / `getaddrinfo`) are modelled as oracle
function parameters; everything the repository's own code does with their
results is translated directly.
-/

/- ==================================================================
Definitions.
================================================================== -/

/-- Error record dict as built by every agent:
`{agent_name, error_type, message, recoverable}` (see `core/state.py` line 39). -/
structure ErrorRecord where
  agent_name : String
  error_type : String
  message : String
  recoverable : Bool
deriving Repr, DecidableEq

/-- One row of the content manifest (a Python dict produced by the JTBD
stage).  Each key the code reads is modelled as an `Option` field; `none`
means the key is absent from the dict. -/
structure ManifestItem where
  id : Option String := none
  persona_role : Option String := none
  jtbd : Option String := none
  burning_question : Option String := none
  asset_type : Option String := none
  recommended_asset_type : Option String := none
deriving Repr, DecidableEq

/-- Generated asset dict as returned by `ContentCreatorAgent.generate_asset`
(content_agent.py lines 86-92).  The returned dict has no
`promotional_materials` key; the promotion stage attaches one later, so the
field is an `Option` that starts out `none`. -/
structure Asset where
  type : String
  title : String
  content : String
  persona : String
  id : String
  promotional_materials : Option String := none
deriving Repr, DecidableEq

/- ------------------------------------------------------------------
Refinement loop controller (src/core/graph.py lines 104-141).
------------------------------------------------------------------ -/

/-- `increment_refinement` node (graph.py lines 104-106): reads
`refinement_count` (default 0) and returns `{"refinement_count": count + 1}`. -/
def increment_refinement (count : Nat) : Nat := count + 1

/-- `should_refine` conditional (graph.py lines 108-116).  Reads
`reviewer_score` (default 0), `refinement_count` (default 0),
`refinement_threshold` (default 80), `max_refinements` (default 2) from the
state and returns the edge label `"refine"` or `"end"`.  Scores and the
threshold are Python ints, modelled as `Int`; the two counters are
non-negative in every reachable state and are modelled as `Nat`. -/
def should_refine (score threshold : Int) (count maxRefs : Nat) : String :=
  if score < threshold ∧ count < maxRefs then "refine" else "end"

/-- One run of the compiled generation graph (graph.py lines 118-141):
entry point `content_creation`, then the unconditional edges
`content_creation → promotion → review`, then the conditional edge keyed on
`should_refine`; `"refine"` goes through `increment_count` and back to
`content_creation`, `"end"` terminates.

The review score of each Generate→Promote→Review cycle is supplied by the
oracle `scores : Nat → Int` (cycle index ↦ score the review stage writes to
`reviewer_score`).  `count` is the current `refinement_count`, `cycles` the
number of full cycles already executed.  Returns
(final `refinement_count`, total number of cycles executed). -/
def run_generation (scores : Nat → Int) (threshold : Int) (maxRefs : Nat)
    (count cycles : Nat) : Nat × Nat :=
  if h : should_refine (scores cycles) threshold count maxRefs = "refine" then
    run_generation scores threshold maxRefs (increment_refinement count) (cycles + 1)
  else
    (count, cycles + 1)
termination_by maxRefs - count
decreasing_by
  simp only [should_refine] at h
  split at h
  · rename_i hcond
    simp only [increment_refinement]
    omega
  · simp at h

/-- Scripted review scores for the documented scenario: cycle 0 scores 50,
cycle 1 scores 65, cycle 2 scores 85. -/
def scriptedScores : Nat → Int :=
  fun n => if n = 0 then 50 else if n = 1 then 65 else 85

/- ------------------------------------------------------------------
Content creation stage (src/agents/content_agent.py).
------------------------------------------------------------------ -/

/-- Normalization applied to each manifest item before the fan-out
(content_agent.py lines 109-114):
if `"asset_type"` is absent and `"recommended_asset_type"` is present, copy
it over; else if `"asset_type"` is absent, set it to `"Blog Post"`. -/
def normalizeItem (item : ManifestItem) : ManifestItem :=
  if item.asset_type = none ∧ item.recommended_asset_type ≠ none then
    { item with asset_type := item.recommended_asset_type }
  else if item.asset_type = none then
    { item with asset_type := some "Blog Post" }
  else
    item

/-- The fixed enumerated set of asset types the system works with, as listed
in the JTBD prompt (jtbd_agent.py line 41, Options). -/
def allowedAssetTypes : List String :=
  ["Blog Post", "LinkedIn Post", "Email Sequence", "Whitepaper", "Case Study",
   "Webinar Script", "Landing Page"]

/-- Shared read-only generation context pulled out of the state by
`batch_generate` (content_agent.py lines 98-104) and passed to every
`generate_asset` call.  Dict-valued fields (the brief) are modelled by
their string rendering, which is how the code feeds them to the prompt. -/
structure GenContext where
  campaign_brief : String
  strategy_framework : String
  refinement_instructions : String
  company_name : String
  brand_voice : String
  brand_tone : String
deriving Repr, DecidableEq

/-- `ContentCreatorAgent.generate_asset` (content_agent.py lines 13-92).
The LLM chain invocation (prompt, llm, StrOutputParser, lines 74-84) is
the oracle `llm : GenContext → ManifestItem → Except String String`; an
`Except.error` models the call raising.  Everything else is the code's own
field plumbing: the asset_type/persona/question defaults (lines 20-23), the
returned dict (lines 86-91) and the `str(hash(content))` id fallback
(line 91), modelled by the oracle `hashId`. -/
def generate_asset (llm : GenContext → ManifestItem → Except String String)
    (hashId : String → String) (ctx : GenContext) (item : ManifestItem) :
    Except String Asset :=
  match llm ctx item with
  | Except.error e => Except.error e
  | Except.ok content =>
    Except.ok
      { type := item.asset_type.getD (item.recommended_asset_type.getD "Blog Post")
        title := item.asset_type.getD (item.recommended_asset_type.getD "Blog Post")
          ++ " for " ++ item.persona_role.getD "Buyer" ++ ": "
          ++ item.burning_question.getD ""
        content := content
        persona := item.persona_role.getD "Buyer"
        id := item.id.getD (hashId content)
        promotional_materials := none }

/-- Error record appended when a fan-out task raises
(content_agent.py lines 128-134). -/
def genError (item : ManifestItem) (e : String) : ErrorRecord :=
  { agent_name := "ContentCreatorAgent"
    error_type := "generation_error"
    message := "Failed to generate "
      ++ item.recommended_asset_type.getD "asset" ++ ": " ++ e
    recoverable := true }

/-- The fan-out/collect part of `batch_generate`
(content_agent.py lines 116-134): each manifest item is one task; a task
that returns a result contributes exactly one asset (the returned dict is a
non-empty literal, hence always truthy at the `if result:` check on
line 125), a task that raises contributes exactly one `ErrorRecord`
appended to the errors list carried in from the state.  The thread pool's
`as_completed` order is unspecified; the embedding processes tasks in
manifest order, which fixes one linearization of the appends. -/
def batch_generate_core (llm : GenContext → ManifestItem → Except String String)
    (hashId : String → String) (ctx : GenContext) :
    List ManifestItem → List ErrorRecord → List Asset × List ErrorRecord
  | [], errors => ([], errors)
  | item :: rest, errors =>
    match generate_asset llm hashId ctx item with
    | Except.ok a =>
      let r := batch_generate_core llm hashId ctx rest errors
      (a :: r.1, r.2)
    | Except.error e =>
      batch_generate_core llm hashId ctx rest (errors ++ [genError item e])

/-- The slice of the generation-phase state read by `batch_generate`
(content_agent.py lines 98-107), with the `state.get` defaults applied. -/
structure GenState where
  content_manifest : List ManifestItem := []
  campaign_brief : String := ""
  strategy_framework : String := ""
  refinement_instructions : String := ""
  company_name : String := "Company"
  brand_voice : String := ""
  brand_tone : String := ""
  errors : List ErrorRecord := []
deriving Repr, DecidableEq

def mkGenContext (st : GenState) : GenContext :=
  { campaign_brief := st.campaign_brief
    strategy_framework := st.strategy_framework
    refinement_instructions := st.refinement_instructions
    company_name := st.company_name
    brand_voice := st.brand_voice
    brand_tone := st.brand_tone }

/-- Partial state update returned by `batch_generate`.  The fields are the
generation-phase state keys the stage could conceivably write; the code's
return statement (content_agent.py line 136) is the dict
`{"generated_assets": assets, "errors": errors}`, so every other field of
the update is `none` (key absent). -/
structure GenUpdate where
  generated_assets : Option (List Asset)
  errors : Option (List ErrorRecord)
  content_manifest : Option (List ManifestItem)
  campaign_brief : Option String
  strategy_framework : Option String
  refinement_threshold : Option Int
  max_refinements : Option Nat
deriving Repr, DecidableEq

/-- `ContentCreatorAgent.batch_generate` (content_agent.py lines 94-136).
Returns the partial state update (the returned dict) together with the
post-call contents of the manifest list: the normalization loop on
lines 110-114 mutates the state's manifest items in place, so the second
component is the value `state["content_manifest"]` holds after the call
even though the key is not part of the returned update. -/
def batch_generate (llm : GenContext → ManifestItem → Except String String)
    (hashId : String → String) (st : GenState) :
    GenUpdate × List ManifestItem :=
  ({ generated_assets := some (batch_generate_core llm hashId (mkGenContext st)
       (st.content_manifest.map normalizeItem) st.errors).1
     errors := some (batch_generate_core llm hashId (mkGenContext st)
       (st.content_manifest.map normalizeItem) st.errors).2
     content_manifest := none
     campaign_brief := none
     strategy_framework := none
     refinement_threshold := none
     max_refinements := none }, st.content_manifest.map normalizeItem)

/- ------------------------------------------------------------------
Promotion stage (src/agents/promo_agent.py).
------------------------------------------------------------------ -/

/-- Python string slicing `s[:n]`, used for the 1000-character content
preview (promo_agent.py line 16). -/
def pyslice (s : String) (n : Nat) : String := String.mk (s.data.take n)

/-- Dict returned by `PromotionalAgent.generate_promo`
(promo_agent.py lines 52-55). -/
structure PromoMaterial where
  parent_asset_id : String
  promo_content : String
deriving Repr, DecidableEq

/-- `PromotionalAgent.generate_promo` (promo_agent.py lines 11-55).  The
LLM chain invocation (line 50) is the oracle
`promoLLM : String → Except String String` applied to the 1000-character
content preview; `Except.error` models the call raising.  On success the
code returns `{"parent_asset_id": asset.get("id"), "promo_content": ...}`,
so the output's parent id is the asset's own id. -/
def generate_promo (promoLLM : String → Except String String) (asset : Asset) :
    Except String PromoMaterial :=
  match promoLLM (pyslice asset.content 1000) with
  | Except.error e => Except.error e
  | Except.ok promo_content =>
    Except.ok { parent_asset_id := asset.id, promo_content := promo_content }

/-- Error record appended when a promo call raises
(promo_agent.py lines 71-76); `\x27` is the single quote around the title. -/
def promoError (asset : Asset) (e : String) : ErrorRecord :=
  { agent_name := "PromotionalAgent"
    error_type := "api_error"
    message := "Failed to generate promo for asset \x27" ++ asset.title
      ++ "\x27: " ++ e
    recoverable := true }

/-- Effect of one iteration of the `batch_promote` loop body
(promo_agent.py lines 66-76) on the asset it visits: on success the promo
content is attached in place under `promotional_materials`; on failure the
asset is left untouched. -/
def promote_one (promoLLM : String → Except String String) (asset : Asset) :
    Asset :=
  match generate_promo promoLLM asset with
  | Except.ok p => { asset with promotional_materials := some p.promo_content }
  | Except.error _ => asset

/-- `PromotionalAgent.batch_promote` (promo_agent.py lines 57-78): iterates
over `state["generated_assets"]` in order, attaching promo content in place
on success and appending one `ErrorRecord` to the state's errors list on
failure, then returns `{"generated_assets": assets, "errors": errors}`.
Returns (asset list after the loop, errors list after the loop). -/
def batch_promote (promoLLM : String → Except String String) :
    List Asset → List ErrorRecord → List Asset × List ErrorRecord
  | [], errors => ([], errors)
  | asset :: rest, errors =>
    match generate_promo promoLLM asset with
    | Except.ok p =>
      let r := batch_promote promoLLM rest errors
      ({ asset with promotional_materials := some p.promo_content } :: r.1, r.2)
    | Except.error e =>
      let r := batch_promote promoLLM rest (errors ++ [promoError asset e])
      (asset :: r.1, r.2)

/- ------------------------------------------------------------------
Review stage (src/agents/reviewer_agent.py).
------------------------------------------------------------------ -/

/-- JSON dict produced by the reviewer chain (prompt, llm,
JsonOutputParser, reviewer_agent.py lines 60-69); each key the code reads
is optional, matching the `result.get(key, default)` accesses. -/
structure ReviewLLMResult where
  score : Option Int
  markdown_report : Option String
  refinement_instructions : Option String
deriving Repr, DecidableEq

/-- Partial state update returned by `ReviewerAgent.review_campaign`.  The
success path (reviewer_agent.py lines 71-75) returns no `errors` key, so
that field is an `Option`. -/
structure ReviewUpdate where
  reviewer_feedback : String
  reviewer_score : Int
  refinement_instructions : String
  errors : Option (List ErrorRecord)
deriving Repr, DecidableEq

/-- `ReviewerAgent.review_campaign` (reviewer_agent.py lines 10-89).  The
chain invocation (lines 64-69) is the oracle argument; `Except.error e`
models it raising with message `str(e) = e`.  On success the update carries
the parsed score/report/instructions with the code's `.get` defaults; on
failure it carries score 0, the fixed retry instruction, and the state's
errors list with one appended `ErrorRecord` (lines 76-89). -/
def review_campaign (chainResult : Except String ReviewLLMResult)
    (priorErrors : List ErrorRecord) : ReviewUpdate :=
  match chainResult with
  | Except.ok r =>
    { reviewer_feedback := r.markdown_report.getD ""
      reviewer_score := r.score.getD 0
      refinement_instructions := r.refinement_instructions.getD ""
      errors := none }
  | Except.error e =>
    { reviewer_feedback := "Review Error: " ++ e
      reviewer_score := 0
      refinement_instructions := "Please retry generation."
      errors := some (priorErrors ++
        [{ agent_name := "ReviewerAgent", error_type := "api_error",
           message := e, recoverable := true }]) }

/-- LangGraph merge of an optional `errors` key of a partial update into
the state: a present key overwrites the field, an absent key leaves the
prior value (last-writer-wins per field, `core/state.py`). -/
def mergeErrors (updateErrors : Option (List ErrorRecord))
    (prior : List ErrorRecord) : List ErrorRecord :=
  updateErrors.getD prior

/- ------------------------------------------------------------------
JTBD stage (src/agents/jtbd_agent.py) and segmentation stage
(src/agents/segment_agent.py).
------------------------------------------------------------------ -/

/-- Shape of the JTBD chain's parsed JSON (jtbd_agent.py lines 63-66): the
code accepts either a JSON list of manifest rows or a dict holding the
list under a `"jobs"` key. -/
inductive JtbdChainResult where
  | jsonList (jobs : List ManifestItem)
  | jobsDict (jobs : List ManifestItem)
deriving Repr, DecidableEq

/-- The list-normalization on jtbd_agent.py lines 64-66: unwrap the
`"jobs"` key when the chain returned a dict. -/
def jtbd_jobs : JtbdChainResult → List ManifestItem
  | JtbdChainResult.jsonList jobs => jobs
  | JtbdChainResult.jobsDict jobs => jobs

/-- Partial state update returned by `JTBDAnalyst.analyze_jobs`; the
success path returns no `errors` key. -/
structure JtbdUpdate where
  content_manifest : List ManifestItem
  errors : Option (List ErrorRecord)
deriving Repr, DecidableEq

/-- `JTBDAnalyst.analyze_jobs` (jtbd_agent.py lines 19-77).  The chain
invocation (line 63) is the oracle argument.  On failure the update is
`{"content_manifest": [], "errors": errors}` with one appended record. -/
def analyze_jobs (chainResult : Except String JtbdChainResult)
    (priorErrors : List ErrorRecord) : JtbdUpdate :=
  match chainResult with
  | Except.ok r => { content_manifest := jtbd_jobs r, errors := none }
  | Except.error e =>
    { content_manifest := []
      errors := some (priorErrors ++
        [{ agent_name := "JTBDAnalyst", error_type := "api_error",
           message := e, recoverable := true }]) }

/-- Parsed JSON dict of the segmentation chain (segment_agent.py line 57);
segment/persona entries are opaque dicts, modelled as strings; both keys
are optional, matching `result.get(key, [])`. -/
structure SegmentChainResult where
  segments : Option (List String)
  personas : Option (List String)
deriving Repr, DecidableEq

/-- Partial state update returned by `MarketSegmentAgent.analyze`; the
success path returns no `errors` key. -/
structure SegmentUpdate where
  segments : List String
  personas : List String
  errors : Option (List ErrorRecord)
deriving Repr, DecidableEq

/-- `MarketSegmentAgent.analyze` (segment_agent.py lines 19-71).  The chain
invocation (line 57) is the oracle argument.  On failure the update is
`{"segments": [], "personas": [], "errors": errors}` with one appended
record. -/
def segment_analyze (chainResult : Except String SegmentChainResult)
    (priorErrors : List ErrorRecord) : SegmentUpdate :=
  match chainResult with
  | Except.ok r =>
    { segments := r.segments.getD []
      personas := r.personas.getD []
      errors := none }
  | Except.error e =>
    { segments := []
      personas := []
      errors := some (priorErrors ++
        [{ agent_name := "MarketSegmentAgent", error_type := "api_error",
           message := e, recoverable := true }]) }

/- ------------------------------------------------------------------
Input stage (src/core/graph.py lines 22-43) and the scraper it calls
(src/utils/scraper.py).
------------------------------------------------------------------ -/

/-- Result of Python's `urllib.parse.urlparse`, restricted to the fields
`validate_url` reads.  `urlparse` itself is standard-library code, so it is
an oracle of type `String → ParsedUrl`. -/
structure ParsedUrl where
  scheme : String
  username : Option String
  password : Option String
  hostname : Option String
deriving Repr, DecidableEq

/-- Python truthiness of an optional string (`if parsed.username or
parsed.password`, `if not hostname`): absent and empty are both falsy. -/
def truthyStr : Option String → Bool
  | none => false
  | some s => !(s == "")

/-- `validate_url` (scraper.py lines 9-35).  `getaddrinfo` is the
standard-library resolver oracle: `none` models `socket.gaierror`, and
`some flags` gives, for every resolved address, whether it is
private/reserved/loopback/link-local.  Returns `Except.error msg` exactly
when the Python function raises `ValueError(msg)` (the scheme message has
the Python `!r` quotes, written with `\x27`). -/
def validate_url (urlparse : String → ParsedUrl)
    (getaddrinfo : String → Option (List Bool)) (url : String) :
    Except String Unit :=
  if url.length > 2048 then
    Except.error "URL exceeds maximum length of 2048 characters"
  else if (urlparse url).scheme ≠ "http" ∧ (urlparse url).scheme ≠ "https" then
    Except.error ("Invalid URL scheme: \x27" ++ (urlparse url).scheme
      ++ "\x27. Only http/https allowed.")
  else if truthyStr (urlparse url).username ∨ truthyStr (urlparse url).password then
    Except.error "URLs with embedded credentials are not allowed"
  else if ¬ truthyStr (urlparse url).hostname then
    Except.error "URL has no hostname"
  else
    match getaddrinfo (((urlparse url).hostname).getD "") with
    | none =>
      Except.error ("Cannot resolve hostname: " ++ ((urlparse url).hostname).getD "")
    | some addrFlags =>
      if addrFlags.any (fun isPrivate => isPrivate) then
        Except.error "URL resolves to private/reserved IP address"
      else
        Except.ok ()

/-- `WebScraper.scrape` (scraper.py lines 48-77).  The `validate_url` call
on line 52 sits OUTSIDE the `try` block, so a `ValueError` from it
propagates out of `scrape`; everything from line 54 on is wrapped in
`try/except Exception` and always returns a string (the except arm returns
`"Error during scrape: ..."`), modelled by the total oracle `tryBody`. -/
def scrape (urlparse : String → ParsedUrl)
    (getaddrinfo : String → Option (List Bool)) (tryBody : String → String)
    (url : String) : Except String String :=
  match validate_url urlparse getaddrinfo url with
  | Except.error e => Except.error e
  | Except.ok _ => Except.ok (tryBody url)

/-- Partial state update returned by `input_node` on the non-raising path
(graph.py lines 40-43). -/
structure InputUpdate where
  raw_web_content : String
  raw_doc_content : String
deriving Repr, DecidableEq

/-- `input_node` (graph.py lines 22-43): scrapes `state["company_url"]`
when it is present and truthy, loads documents (the `DocumentLoader` call
never raises — every per-file failure is caught inside `load_files` — so
its joined output is the oracle `doc_content`), and returns the update.
There is no exception handler in `input_node`, so an exception raised by
`scrape` escapes the stage: the result type is `Except`, with
`Except.error` meaning the stage invocation itself raises. -/
def input_node (urlparse : String → ParsedUrl)
    (getaddrinfo : String → Option (List Bool)) (tryBody : String → String)
    (doc_content : String) (company_url : Option String) :
    Except String InputUpdate :=
  match company_url with
  | none => Except.ok { raw_web_content := "", raw_doc_content := doc_content }
  | some url =>
    if url = "" then
      Except.ok { raw_web_content := "", raw_doc_content := doc_content }
    else
      match scrape urlparse getaddrinfo tryBody url with
      | Except.error e => Except.error e
      | Except.ok web =>
        Except.ok { raw_web_content := web, raw_doc_content := doc_content }

/- ------------------------------------------------------------------
Concrete inputs used by witnesses and counterexamples.
------------------------------------------------------------------ -/

/-- A collaborator oracle whose every call raises. -/
def failLLM : GenContext → ManifestItem → Except String String :=
  fun _ _ => Except.error "API down"

/-- A fixed id-hash oracle for concrete evaluations. -/
def hashId0 : String → String := fun _ => "h0"

/-- A concrete two-row manifest. -/
def exManifest : List ManifestItem :=
  [{ id := some "m1", persona_role := some "CTO", burning_question := some "Q1",
     recommended_asset_type := some "Whitepaper" },
   { id := some "m2" }]

/-- A concrete generation-phase state holding `exManifest`. -/
def exGenState : GenState := { content_manifest := exManifest }

/-- A concrete generated asset. -/
def exAsset : Asset :=
  { type := "Blog Post", title := "T", content := "body", persona := "Buyer",
    id := "a1" }

/-- A promo oracle that always succeeds, prefixing the preview. -/
def promoOK : String → Except String String :=
  fun s => Except.ok ("PROMO " ++ s)

/-- A manifest row whose `asset_type` holds a value outside
`allowedAssetTypes`. -/
def garbageItem : ManifestItem := { asset_type := some "Garbage Type" }

/-- A `urlparse` oracle matching Python on `"ftp://example.com"`:
`urlparse("ftp://example.com")` has scheme `"ftp"`, no credentials and
hostname `"example.com"`. -/
def ftpParse : String → ParsedUrl :=
  fun _ => { scheme := "ftp", username := none, password := none,
             hostname := some "example.com" }

/-- A resolver oracle returning one public address. -/
def publicAddrs : String → Option (List Bool) := fun _ => some [false]

/- ==================================================================
Theorems.
================================================================== -/

theorem should_refine_refine_iff (score threshold : Int) (count maxRefs : Nat) :
    should_refine score threshold count maxRefs = "refine" ↔
      score < threshold ∧ count < maxRefs := by
  unfold should_refine
  split
  · simp [*]
  · simp only [String.reduceEq, false_iff]
    assumption

theorem should_refine_end_of_ne (score threshold : Int) (count maxRefs : Nat)
    (h : should_refine score threshold count maxRefs ≠ "refine") :
    should_refine score threshold count maxRefs = "end" := by
  unfold should_refine at *
  split at h <;> split <;> simp_all

theorem run_generation_step_refine (scores : Nat → Int) (threshold : Int)
    (maxRefs count cycles : Nat)
    (h : should_refine (scores cycles) threshold count maxRefs = "refine") :
    run_generation scores threshold maxRefs count cycles =
      run_generation scores threshold maxRefs (count + 1) (cycles + 1) := by
  rw [run_generation]
  simp [h, increment_refinement]

theorem run_generation_step_end (scores : Nat → Int) (threshold : Int)
    (maxRefs count cycles : Nat)
    (h : should_refine (scores cycles) threshold count maxRefs ≠ "refine") :
    run_generation scores threshold maxRefs count cycles = (count, cycles + 1) := by
  rw [run_generation]
  simp [h]

theorem run_generation_cycles_le (scores : Nat → Int) (threshold : Int) :
    ∀ fuel maxRefs count cycles, maxRefs - count ≤ fuel →
      (run_generation scores threshold maxRefs count cycles).2 ≤
        cycles + (maxRefs - count) + 1 := by
  intro fuel
  induction fuel with
  | zero =>
    intro maxRefs count cycles hf
    have hnc : ¬ count < maxRefs := by omega
    have hne : should_refine (scores cycles) threshold count maxRefs ≠ "refine" := by
      intro hr
      exact hnc ((should_refine_refine_iff _ _ _ _).1 hr).2
    rw [run_generation_step_end _ _ _ _ _ hne]
    omega
  | succ n ih =>
    intro maxRefs count cycles hf
    by_cases h : should_refine (scores cycles) threshold count maxRefs = "refine"
    · have hc := ((should_refine_refine_iff _ _ _ _).1 h).2
      rw [run_generation_step_refine _ _ _ _ _ h]
      have := ih maxRefs (count + 1) (cycles + 1) (by omega)
      omega
    · rw [run_generation_step_end _ _ _ _ _ h]
      omega

/-- C1: the refinement loop (generate → promote → review → should_refine)
starting from `refinement_count = 0` executes at most `max_refinements + 1`
full cycles for every review-score oracle and threshold, and with
`max_refinements = 0` exactly one cycle runs regardless of the score. -/
theorem C1_loop_cycle_bound :
    (∀ (scores : Nat → Int) (threshold : Int) (maxRefs : Nat),
      (run_generation scores threshold maxRefs 0 0).2 ≤ maxRefs + 1) ∧
    (∀ (scores : Nat → Int) (threshold : Int),
      (run_generation scores threshold 0 0 0).2 = 1) := by
  constructor
  · intro scores threshold maxRefs
    have := run_generation_cycles_le scores threshold maxRefs maxRefs 0 0 (by omega)
    omega
  · intro scores threshold
    have hne : should_refine (scores 0) threshold 0 0 ≠ "refine" := by
      intro hr
      exact absurd ((should_refine_refine_iff _ _ _ _).1 hr).2 (by omega)
    rw [run_generation_step_end _ _ _ _ _ hne]

/-- C2: the controller transitions to Refine iff
`score < threshold ∧ count < max_refinements` (otherwise it takes the
`"end"` edge), the Refine transition increments `refinement_count` by
exactly 1, and with threshold 80, max_refinements 2 and scripted scores
[50, 65, 85] the loop runs exactly 3 cycles ending with
`refinement_count = 2`. -/
theorem C2_refine_decision :
    (∀ (score threshold : Int) (count maxRefs : Nat),
      should_refine score threshold count maxRefs = "refine" ↔
        score < threshold ∧ count < maxRefs) ∧
    (∀ (score threshold : Int) (count maxRefs : Nat),
      should_refine score threshold count maxRefs = "refine" ∨
        should_refine score threshold count maxRefs = "end") ∧
    (∀ count : Nat, increment_refinement count = count + 1) ∧
    run_generation scriptedScores 80 2 0 0 = (2, 3) := by
  refine ⟨should_refine_refine_iff, ?_, fun _ => rfl, ?_⟩
  · intro score threshold count maxRefs
    by_cases h : should_refine score threshold count maxRefs = "refine"
    · exact Or.inl h
    · exact Or.inr (should_refine_end_of_ne _ _ _ _ h)
  · have h0 : should_refine (scriptedScores 0) 80 0 2 = "refine" := by
      simp [scriptedScores, should_refine]
    have h1 : should_refine (scriptedScores 1) 80 1 2 = "refine" := by
      simp [scriptedScores, should_refine]
    have h2 : should_refine (scriptedScores 2) 80 2 2 ≠ "refine" := by
      simp [scriptedScores, should_refine]
    rw [run_generation_step_refine _ _ _ _ _ h0,
        run_generation_step_refine _ _ _ _ _ h1,
        run_generation_step_end _ _ _ _ _ h2]

/-- Witness for C2 at concrete inputs: the decision iff at
(50, 80, 0, 2) and the increment at 0. -/
theorem C2_refine_decision_witness :
    should_refine 50 80 0 2 = "refine" ∧ increment_refinement 0 = 1 :=
  ⟨(C2_refine_decision.1 50 80 0 2).mpr (by constructor <;> decide),
   C2_refine_decision.2.2.1 0⟩

theorem countP_add_countP_not {α : Type} (p : α → Bool) (l : List α) :
    l.countP p + l.countP (fun a => !p a) = l.length := by
  induction l with
  | nil => simp
  | cons a t ih =>
    by_cases h : p a = true <;> simp [List.countP_cons, h] <;> omega

theorem batch_generate_core_spec
    (llm : GenContext → ManifestItem → Except String String)
    (hashId : String → String) (ctx : GenContext) :
    ∀ (manifest : List ManifestItem) (errors : List ErrorRecord),
      ∃ newErrors,
        (batch_generate_core llm hashId ctx manifest errors).2 = errors ++ newErrors ∧
        (batch_generate_core llm hashId ctx manifest errors).1.length =
          manifest.countP (fun item => (generate_asset llm hashId ctx item).isOk) ∧
        newErrors.length =
          manifest.countP (fun item => !(generate_asset llm hashId ctx item).isOk) ∧
        (∀ r ∈ newErrors, r.recoverable = true) := by
  intro manifest
  induction manifest with
  | nil =>
    intro errors
    exact ⟨[], by simp [batch_generate_core]⟩
  | cons item rest ih =>
    intro errors
    cases hgen : generate_asset llm hashId ctx item with
    | ok a =>
      obtain ⟨new, h1, h2, h3, h4⟩ := ih errors
      refine ⟨new, ?_, ?_, ?_, h4⟩
      · simpa [batch_generate_core, hgen] using h1
      · simp [batch_generate_core, hgen, List.countP_cons, h2, Except.isOk,
          Except.toBool]
      · simp [List.countP_cons, hgen, h3, Except.isOk, Except.toBool]
    | error e =>
      obtain ⟨new, h1, h2, h3, h4⟩ := ih (errors ++ [genError item e])
      refine ⟨genError item e :: new, ?_, ?_, ?_, ?_⟩
      · simp only [batch_generate_core, hgen]
        rw [h1]
        simp
      · simp [batch_generate_core, hgen, List.countP_cons, h2, Except.isOk,
          Except.toBool]
      · simp [List.countP_cons, hgen, h3, Except.isOk, Except.toBool]
      · intro r hr
        rcases List.mem_cons.1 hr with h | h
        · simp [h, genError]
        · exact h4 r h

/-- C3: for every manifest of size N, `batch_generate` produces exactly N
outcomes: the number of generated assets plus the number of newly appended
error records equals N, with one asset per task whose collaborator call
succeeds and one error record per task whose call raises — never both,
never neither, for any manifest size (the worker-pool width does not enter
the accounting). -/
theorem C3_fanout_outcome_count
    (llm : GenContext → ManifestItem → Except String String)
    (hashId : String → String) (st : GenState) :
    ∃ assets newErrors,
      (batch_generate llm hashId st).1.generated_assets = some assets ∧
      (batch_generate llm hashId st).1.errors = some (st.errors ++ newErrors) ∧
      assets.length + newErrors.length = st.content_manifest.length ∧
      assets.length = st.content_manifest.countP
        (fun item =>
          (generate_asset llm hashId (mkGenContext st) (normalizeItem item)).isOk) ∧
      newErrors.length = st.content_manifest.countP
        (fun item =>
          !(generate_asset llm hashId (mkGenContext st) (normalizeItem item)).isOk) := by
  obtain ⟨new, h1, h2, h3, _⟩ :=
    batch_generate_core_spec llm hashId (mkGenContext st)
      (st.content_manifest.map normalizeItem) st.errors
  have hok : (batch_generate_core llm hashId (mkGenContext st)
      (st.content_manifest.map normalizeItem) st.errors).1.length =
      st.content_manifest.countP (fun item =>
        (generate_asset llm hashId (mkGenContext st) (normalizeItem item)).isOk) := by
    rw [h2, List.countP_map]
    rfl
  have herr : new.length = st.content_manifest.countP (fun item =>
      !(generate_asset llm hashId (mkGenContext st) (normalizeItem item)).isOk) := by
    rw [h3, List.countP_map]
    rfl
  refine ⟨_, new, rfl, ?_, ?_, hok, herr⟩
  · simp only [batch_generate]
    rw [h1]
  · rw [hok, herr]
    exact countP_add_countP_not
      (fun item =>
        (generate_asset llm hashId (mkGenContext st) (normalizeItem item)).isOk)
      st.content_manifest

theorem normalizeItem_eq (item : ManifestItem) :
    normalizeItem item = { item with
      asset_type := some (item.asset_type.getD (item.recommended_asset_type.getD "Blog Post")) } := by
  obtain ⟨i, pr, j, bq, a, ra⟩ := item
  cases a <;> cases ra <;> simp [normalizeItem]

/-- C4: when every fan-out task fails, `batch_generate` still returns, with
an empty asset list and exactly one new error record per manifest row. -/
theorem C4_all_tasks_fail
    (llm : GenContext → ManifestItem → Except String String)
    (hashId : String → String) (st : GenState)
    (hfail : ∀ item ∈ st.content_manifest,
      (generate_asset llm hashId (mkGenContext st) (normalizeItem item)).isOk = false) :
    (batch_generate llm hashId st).1.generated_assets = some [] ∧
    ∃ newErrors,
      (batch_generate llm hashId st).1.errors = some (st.errors ++ newErrors) ∧
      newErrors.length = st.content_manifest.length := by
  obtain ⟨new, h1, h2, h3, _⟩ := batch_generate_core_spec llm hashId (mkGenContext st)
      (st.content_manifest.map normalizeItem) st.errors
  have hzero : (st.content_manifest.map normalizeItem).countP
      (fun item => (generate_asset llm hashId (mkGenContext st) item).isOk) = 0 := by
    rw [List.countP_eq_zero]
    intro a ha
    obtain ⟨b, hb, rfl⟩ := List.mem_map.1 ha
    simp [hfail b hb]
  have hall : (st.content_manifest.map normalizeItem).countP
      (fun item => !(generate_asset llm hashId (mkGenContext st) item).isOk) =
      (st.content_manifest.map normalizeItem).length := by
    rw [List.countP_eq_length]
    intro a ha
    obtain ⟨b, hb, rfl⟩ := List.mem_map.1 ha
    simp [hfail b hb]
  have hnil : (batch_generate_core llm hashId (mkGenContext st)
      (st.content_manifest.map normalizeItem) st.errors).1 = [] := by
    have := h2.trans hzero
    exact List.length_eq_zero.1 this
  refine ⟨?_, new, ?_, ?_⟩
  · simp only [batch_generate]
    rw [hnil]
  · simp only [batch_generate]
    rw [h1]
  · rw [h3, hall, List.length_map]

/-- Witness for C4: a concrete two-row manifest with an always-raising
collaborator yields no assets and two new error records. -/
theorem C4_all_tasks_fail_witness :
    (batch_generate failLLM hashId0 exGenState).1.generated_assets = some [] ∧
    ∃ newErrors,
      (batch_generate failLLM hashId0 exGenState).1.errors =
        some (exGenState.errors ++ newErrors) ∧
      newErrors.length = exGenState.content_manifest.length :=
  C4_all_tasks_fail failLLM hashId0 exGenState (by decide)

theorem batch_promote_spec (promoLLM : String → Except String String) :
    ∀ (assets : List Asset) (errors : List ErrorRecord),
      (batch_promote promoLLM assets errors).1 = assets.map (promote_one promoLLM) ∧
      ∃ new, (batch_promote promoLLM assets errors).2 = errors ++ new ∧
        ∀ r ∈ new, r.recoverable = true := by
  intro assets
  induction assets with
  | nil =>
    intro errors
    exact ⟨rfl, [], by simp [batch_promote], by simp⟩
  | cons a rest ih =>
    intro errors
    cases hp : generate_promo promoLLM a with
    | ok p =>
      obtain ⟨h1, new, h2, h3⟩ := ih errors
      constructor
      · simp [batch_promote, hp, promote_one, h1]
      · exact ⟨new, by simp only [batch_promote, hp]; exact h2, h3⟩
    | error e =>
      obtain ⟨h1, new, h2, h3⟩ := ih (errors ++ [promoError a e])
      constructor
      · simp [batch_promote, hp, promote_one, h1]
      · refine ⟨promoError a e :: new, ?_, ?_⟩
        · simp only [batch_promote, hp]
          rw [h2]
          simp
        · intro r hr
          rcases List.mem_cons.1 hr with h | h
          · simp [h, promoError]
          · exact h3 r h

/-- C5: after `batch_promote` the asset list is the input list with every
asset whose promo call succeeded updated in place: its
`promotional_materials` field is attached (set to the promo content of the
promotion output whose `parent_asset_id` equals the asset's own id, hence
matching), while an asset whose promo call failed is returned exactly as it
came in, so its `promotional_materials` stays unset. -/
theorem C5_promotion_attaches_in_place (promoLLM : String → Except String String)
    (assets : List Asset) (prior : List ErrorRecord) :
    (batch_promote promoLLM assets prior).1 = assets.map (promote_one promoLLM) ∧
    (∀ asset p, generate_promo promoLLM asset = Except.ok p →
      p.parent_asset_id = asset.id ∧
      promote_one promoLLM asset =
        { asset with promotional_materials := some p.promo_content } ∧
      (promote_one promoLLM asset).promotional_materials ≠ none) ∧
    (∀ asset e, generate_promo promoLLM asset = Except.error e →
      promote_one promoLLM asset = asset) := by
  refine ⟨(batch_promote_spec promoLLM assets prior).1, ?_, ?_⟩
  · intro asset p hp
    have hid : p.parent_asset_id = asset.id := by
      cases hll : promoLLM (pyslice asset.content 1000) with
      | ok c =>
        simp only [generate_promo, hll] at hp
        injection hp with h
        rw [← h]
      | error e2 =>
        simp only [generate_promo, hll] at hp
        exact Except.noConfusion hp
    refine ⟨hid, ?_, ?_⟩
    · simp only [promote_one, hp]
    · simp only [promote_one, hp]
      simp
  · intro asset e hp
    simp only [promote_one, hp]

/-- Witness for C5: a one-asset batch with a succeeding promo oracle; the
asset comes back with the promo content attached in place. -/
theorem C5_promotion_attaches_in_place_witness :
    (batch_promote promoOK [exAsset] []).1 =
      [{ exAsset with promotional_materials := some "PROMO body" }] := by
  have h := C5_promotion_attaches_in_place promoOK [exAsset] []
  rw [h.1, List.map_cons, List.map_nil,
    (h.2.1 exAsset { parent_asset_id := "a1", promo_content := "PROMO body" }
      rfl).2.1]

/-- C6 counterexample: the input stage does NOT contain its collaborator's
failure.  `validate_url` is called by `scrape` outside any try block
(scraper.py line 52) and `input_node` has no handler, so with a company URL
whose scheme is not http/https (Python's
`urlparse("ftp://example.com").scheme = "ftp"`, mirrored by the `ftpParse`
oracle) the stage invocation raises `ValueError` instead of returning a
state update — no `ErrorRecord`, no fallback fields. -/
theorem C6_counterexample_input_stage_raises :
    input_node ftpParse publicAddrs (fun _ => "") "" (some "ftp://example.com") =
      Except.error "Invalid URL scheme: \x27ftp\x27. Only http/https allowed." := rfl

/-- C6 amended: every LLM-backed stage catches its own collaborator failure
and returns a state update with one recoverable `ErrorRecord` plus safe
fallback output fields (zero score and fixed retry text for review, empty
manifest for JTBD, empty segments and personas for segmentation); the
exception is the input stage, whose URL-validation errors propagate
uncaught (see the counterexample). -/
theorem C6_amended_llm_stage_containment :
    ∀ (e : String) (prior : List ErrorRecord),
      ((review_campaign (Except.error e) prior).reviewer_score = 0 ∧
        (review_campaign (Except.error e) prior).errors =
          some (prior ++ [⟨"ReviewerAgent", "api_error", e, true⟩])) ∧
      ((analyze_jobs (Except.error e) prior).content_manifest = [] ∧
        (analyze_jobs (Except.error e) prior).errors =
          some (prior ++ [⟨"JTBDAnalyst", "api_error", e, true⟩])) ∧
      ((segment_analyze (Except.error e) prior).segments = [] ∧
        (segment_analyze (Except.error e) prior).personas = [] ∧
        (segment_analyze (Except.error e) prior).errors =
          some (prior ++ [⟨"MarketSegmentAgent", "api_error", e, true⟩])) :=
  fun _ _ => ⟨⟨rfl, rfl⟩, ⟨rfl, rfl⟩, rfl, rfl, rfl⟩

/-- C7 counterexample: normalization does not map `asset_type` into the
fixed enumerated set.  A manifest row carrying the unrecognized value
`"Garbage Type"` keeps it through normalization and it is consumed verbatim
as the generated asset's `type`; no fallback is applied to unrecognized
values, only to absent ones. -/
theorem C7_counterexample_no_enum_validation :
    (normalizeItem garbageItem).asset_type = some "Garbage Type" ∧
    "Garbage Type" ∉ allowedAssetTypes ∧
    (generate_asset (fun _ _ => Except.ok "content text") hashId0
        (mkGenContext {}) (normalizeItem garbageItem)).map Asset.type =
      Except.ok "Garbage Type" := by
  refine ⟨by decide, by decide, rfl⟩

/-- C7 amended: before consumption each manifest item is normalized so that
`asset_type` is PRESENT: an absent value falls back to
`recommended_asset_type` when that key exists and to the default
`"Blog Post"` otherwise, while any already-present value — recognized or
not — is passed through unchanged; no membership check against the
enumerated asset-type set is performed. -/
theorem C7_normalization_presence_amended
    (llm : GenContext → ManifestItem → Except String String)
    (hashId : String → String) (st : GenState) :
    (batch_generate llm hashId st).2 = st.content_manifest.map normalizeItem ∧
    (∀ item : ManifestItem, normalizeItem item = { item with
      asset_type := some (item.asset_type.getD (item.recommended_asset_type.getD "Blog Post")) }) ∧
    (batch_generate llm hashId st).2.all (fun item => item.asset_type.isSome) = true := by
  refine ⟨rfl, normalizeItem_eq, ?_⟩
  show (st.content_manifest.map normalizeItem).all
    (fun item => item.asset_type.isSome) = true
  rw [List.all_eq_true]
  intro item hitem
  obtain ⟨b, hb, rfl⟩ := List.mem_map.1 hitem
  rw [normalizeItem_eq b]
  simp

/-- C8: the error records appended by the content fan-out, the promotion
loop and the review stage all have `recoverable = true`, and each of those
stages only ever extends the errors list it read from the state (the review
success path omits the errors key, which the merge leaves unchanged) —
never removing or replacing records. -/
theorem C8_errors_append_only_recoverable
    (llm : GenContext → ManifestItem → Except String String)
    (hashId : String → String) (st : GenState)
    (promoLLM : String → Except String String) (assets : List Asset)
    (chainResult : Except String ReviewLLMResult) (prior : List ErrorRecord) :
    (∃ new, (batch_generate llm hashId st).1.errors = some (st.errors ++ new) ∧
      ∀ r ∈ new, r.recoverable = true) ∧
    (∃ new, (batch_promote promoLLM assets prior).2 = prior ++ new ∧
      ∀ r ∈ new, r.recoverable = true) ∧
    (∃ new, mergeErrors (review_campaign chainResult prior).errors prior =
        prior ++ new ∧
      ∀ r ∈ new, r.recoverable = true) := by
  refine ⟨?_, ?_, ?_⟩
  · obtain ⟨new, h1, _, _, h4⟩ := batch_generate_core_spec llm hashId (mkGenContext st)
      (st.content_manifest.map normalizeItem) st.errors
    refine ⟨new, ?_, h4⟩
    simp only [batch_generate]
    rw [h1]
  · obtain ⟨_, new, h2, h3⟩ := batch_promote_spec promoLLM assets prior
    exact ⟨new, h2, h3⟩
  · cases chainResult with
    | ok r => exact ⟨[], by simp [review_campaign, mergeErrors], by simp⟩
    | error e =>
      refine ⟨[⟨"ReviewerAgent", "api_error", e, true⟩], rfl, ?_⟩
      intro r hr
      rw [List.mem_singleton.1 hr]

/-- Witness for C8 at concrete inputs: the content fan-out clause for the
two-row always-failing batch. -/
theorem C8_errors_append_only_recoverable_witness :
    ∃ new, (batch_generate failLLM hashId0 exGenState).1.errors =
      some (exGenState.errors ++ new) ∧ ∀ r ∈ new, r.recoverable = true :=
  (C8_errors_append_only_recoverable failLLM hashId0 exGenState promoOK [exAsset]
    (Except.error "review boom") []).1

/-- C9: when the review chain raises, the stage update carries
`reviewer_score = 0` and `refinement_instructions = "Please retry
generation."`, and since 0 is below any positive threshold the decision
point refines exactly when `refinement_count < max_refinements`. -/
theorem C9_failed_review_retries :
    (∀ (e : String) (prior : List ErrorRecord),
      (review_campaign (Except.error e) prior).reviewer_score = 0 ∧
      (review_campaign (Except.error e) prior).refinement_instructions =
        "Please retry generation.") ∧
    (∀ (threshold : Int) (count maxRefs : Nat), 0 < threshold →
      (should_refine 0 threshold count maxRefs = "refine" ↔ count < maxRefs)) := by
  constructor
  · exact fun _ _ => ⟨rfl, rfl⟩
  · intro threshold count maxRefs ht
    rw [should_refine_refine_iff]
    exact ⟨And.right, fun h => ⟨ht, h⟩⟩

/-- Witness for C9: a concrete raising review with threshold 80,
count 0, max 2 triggers a refine transition. -/
theorem C9_failed_review_retries_witness :
    (review_campaign (Except.error "timeout") []).reviewer_score = 0 ∧
    should_refine 0 80 0 2 = "refine" :=
  ⟨(C9_failed_review_retries.1 "timeout" []).1,
   (C9_failed_review_retries.2 80 0 2 (by decide)).mpr (by decide)⟩

/-- C10: the update returned by `batch_generate` carries exactly the
`generated_assets` and `errors` keys — `content_manifest`,
`campaign_brief`, `strategy_framework`, `refinement_threshold` and
`max_refinements` are all absent — while the in-place normalization leaves
the state's manifest equal to its normalized image, in which every item
carries an `asset_type` key. -/
theorem C10_update_frame_and_manifest_mutation
    (llm : GenContext → ManifestItem → Except String String)
    (hashId : String → String) (st : GenState) :
    (batch_generate llm hashId st).1.generated_assets.isSome = true ∧
    (batch_generate llm hashId st).1.errors.isSome = true ∧
    (batch_generate llm hashId st).1.content_manifest = none ∧
    (batch_generate llm hashId st).1.campaign_brief = none ∧
    (batch_generate llm hashId st).1.strategy_framework = none ∧
    (batch_generate llm hashId st).1.refinement_threshold = none ∧
    (batch_generate llm hashId st).1.max_refinements = none ∧
    (batch_generate llm hashId st).2 = st.content_manifest.map normalizeItem ∧
    (batch_generate llm hashId st).2.all (fun item => item.asset_type.isSome) = true := by
  refine ⟨rfl, rfl, rfl, rfl, rfl, rfl, rfl, rfl, ?_⟩
  show (st.content_manifest.map normalizeItem).all
    (fun item => item.asset_type.isSome) = true
  rw [List.all_eq_true]
  intro item hitem
  obtain ⟨b, hb, rfl⟩ := List.mem_map.1 hitem
  rw [normalizeItem_eq b]
  simp
